import Mathlib

/-!
Shallow embedding of `src/main.py` (Flask YOLO CCTV system): the
`CameraManager` class (camera session state machine), the device registry
scan `get_available_cameras`, the `/control` request handler, and the lock
discipline of the session's methods.

Modelling conventions:
* `cv2.VideoCapture(i)` always yields an object; whether the device actually
  opened is its `isOpened()` flag.  We model the object as a `Capture` record
  carrying the requested index and that flag.  Whether a given index opens,
  whether a read succeeds, etc. are environment inputs (the device layer is
  opaque, per the spec).
* Exceptions are modelled explicitly: a code path that may raise is given a
  boolean "raises" environment flag, and the embedding of a `try/except`
  block dispatches on it, keeping the state reached at the raise point.
* Frames and encoded byte buffers are opaque tokens (`Frame`, `Nat`);
  float confidences are opaque `Nat` tokens (their numeric value and the
  `round(·, 4)` call are irrelevant to every claim checked here).
* The on-disk JSON log file `detection_log.json` is modelled as the
  `logs : List LogEntry` field of the state (an absent file reads as `[]`).
  A caught I/O failure in `log_detection` leaves the modelled file unchanged
  and, faithfully to the code, skips the `detection_count` increment (the
  increment sits after the write inside the `try`).
-/

namespace CCTV

/-- Result of `cv2.VideoCapture(camera_index)`: the constructor always returns
an object; `opened` is its `isOpened()` value. -/
structure Capture where
  idx : Nat
  opened : Bool
deriving DecidableEq, Repr

/-- One record of `detection_log.json` as written by
`CameraManager.log_detection` (timestamp, class, confidence, camera_idx). -/
structure LogEntry where
  timestamp : String
  className : String
  confidence : Nat
  camera_idx : Nat
deriving DecidableEq, Repr

/-- The mutable fields of the single `CameraManager` instance, plus the
modelled contents of `detection_log.json`. -/
structure CamState where
  camera : Option Capture
  is_running : Bool
  detection_count : Nat
  current_camera_index : Nat
  logs : List LogEntry
deriving DecidableEq, Repr

/-- `CameraManager.__init__`: camera None, not running, zero detections,
current index 0; no log file yet. -/
def initState : CamState :=
  { camera := none, is_running := false, detection_count := 0,
    current_camera_index := 0, logs := [] }

/-- The module-level flags fixed at process start: `YOLO_AVAILABLE` and
whether `model is not None` (set together by the startup `try/except`). -/
structure Config where
  yolo_available : Bool
  model_loaded : Bool
deriving DecidableEq, Repr

/-- The `{"success": ..., "message": ...}` dictionaries returned by
`start`/`stop` and the `/control` handler. -/
structure CtrlResult where
  success : Bool
  message : String
deriving DecidableEq, Repr

/-- The dictionary returned by `CameraManager.get_status`. -/
structure Status where
  camera_on : Bool
  current_idx : Nat
  yolo_available : Bool
  detection_count : Nat
deriving DecidableEq, Repr

/-- One detection reported by the model for a frame (class name and an opaque
confidence token). -/
structure Det where
  className : String
  confidence : Nat
deriving DecidableEq, Repr

/-- A frame buffer: raw as read from the device, or with one detection's
rectangle-and-label drawn onto a base frame. -/
inductive Frame where
  | raw (id : Nat)
  | annotated (base : Frame) (d : Det)
deriving DecidableEq, Repr

/-- Environment inputs consumed by one `get_frame` call: outcomes of the
device read, of the model invocation, of JPEG encoding, and of each
`log_detection` call's file I/O (indexed by position in the detection list). -/
structure Tick where
  readRaises : Bool
  readRet : Bool
  rawFrame : Nat
  modelRaises : Bool
  dets : List Det
  encRaises : Bool
  encRet : Bool
  encodeOf : Frame → Nat
  logIoOk : Nat → Bool
  nowAt : Nat → String

/-- The log entry `log_detection` builds for a detection. -/
def mkEntry (now cn : String) (conf : Nat) (idx : Nat) : LogEntry :=
  { timestamp := now, className := cn, confidence := conf, camera_idx := idx }

/-- `CameraManager.log_detection`: read the log file (absent reads as `[]`),
append the new record, truncate to the last 1000 entries when over the cap,
write it back, then increment `detection_count`.  The whole body is inside
`try`/`except: pass`; `ioOk = false` models any I/O failure there, which the
code swallows, leaving the count unincremented. -/
def log_detection (ioOk : Bool) (now cn : String) (conf : Nat) (s : CamState) : CamState :=
  if ioOk then
    let logs := s.logs ++ [mkEntry now cn conf s.current_camera_index]
    let logs := if logs.length > 1000 then logs.drop (logs.length - 1000) else logs
    { s with logs := logs, detection_count := s.detection_count + 1 }
  else s

/-- `CameraManager.detect_objects`: run the model on the frame (inside
`try`/`except: pass`: if the model raises, the original frame is returned and
nothing was drawn or logged); otherwise, for each box, draw it on the frame
and call `log_detection`. -/
def detect_objects (t : Tick) (frame : Frame) (s : CamState) : Frame × CamState :=
  if t.modelRaises then (frame, s)
  else
    t.dets.enum.foldl
      (fun fs kd =>
        (Frame.annotated fs.1 kd.2,
         log_detection (t.logIoOk kd.1) (t.nowAt kd.1) kd.2.className kd.2.confidence fs.2))
      (frame, s)

/-- The `try` block of `CameraManager.get_frame`: read a frame (`ret, frame =
self.camera.read()`), return `None` if the read reports failure, run
detection when the model is available, then JPEG-encode.  `Except.error`
carries the state at a raise point, to be caught by `get_frame`. -/
def getFrameBody (cfg : Config) (t : Tick) (s : CamState) :
    Except CamState (Option Nat × CamState) :=
  if t.readRaises then Except.error s
  else if !t.readRet then Except.ok (none, s)
  else
    let frame0 := Frame.raw t.rawFrame
    let fs :=
      if cfg.yolo_available && cfg.model_loaded then detect_objects t frame0 s
      else (frame0, s)
    if t.encRaises then Except.error fs.2
    else if t.encRet then Except.ok (some (t.encodeOf fs.1), fs.2)
    else Except.ok (none, fs.2)

/-- `CameraManager.get_frame`: returns `None` immediately when not running or
the camera field is `None`; otherwise runs the `try` block, with
`except Exception: pass` turning any raise into the final `return None`. -/
def get_frame (cfg : Config) (t : Tick) (s : CamState) : Option Nat × CamState :=
  if !s.is_running || s.camera.isNone then (none, s)
  else
    match getFrameBody cfg t s with
    | Except.ok r => r
    | Except.error s' => (none, s')

/-- `CameraManager.start`: under the lock, a no-op success if already
running; otherwise assign `self.camera = cv2.VideoCapture(camera_index)`
(note: assigned before the `isOpened()` check), fail if it did not open,
else configure it, set `is_running` and `current_camera_index`, and report
success.  `openOk` is the environment's answer to whether index `i` opens. -/
def start (openOk : Bool) (i : Nat) (s : CamState) : CtrlResult × CamState :=
  if s.is_running then
    ({ success := true, message := "이미 실행 중입니다" }, s)
  else
    let cap : Capture := { idx := i, opened := openOk }
    let s1 := { s with camera := some cap }
    if !openOk then
      ({ success := false, message := "❌ " ++ toString i ++ "번 카메라 연결 실패!" }, s1)
    else
      ({ success := true, message := "✅ " ++ toString i ++ "번 카메라 시작됨" },
       { s1 with is_running := true, current_camera_index := i })

/-- `CameraManager.stop`: under the lock, a no-op success if already stopped;
otherwise clear `is_running`, release and null the camera if it is set, and
report success. -/
def stop (s : CamState) : CtrlResult × CamState :=
  if !s.is_running then
    ({ success := true, message := "이미 중지 상태입니다" }, s)
  else
    let s1 := { s with is_running := false }
    let s2 := if s1.camera.isSome then { s1 with camera := none } else s1
    ({ success := true, message := "⏹️ 카메라 종료됨" }, s2)

/-- `CameraManager.get_status`: a pure read of the four reported fields. -/
def get_status (cfg : Config) (s : CamState) : Status :=
  { camera_on := s.is_running, current_idx := s.current_camera_index,
    yolo_available := cfg.yolo_available, detection_count := s.detection_count }

/-- Environment for one registry scan: per candidate index, whether the
`cv2.VideoCapture(i)` constructor raises, whether the capture opens, whether
`cap.read()` raises, and whether it returns `ret = True`. -/
structure ScanEnv where
  ctorRaises : Nat → Bool
  opens : Nat → Bool
  readRaises : Nat → Bool
  readOk : Nat → Bool

/-- One iteration of the scan loop in `get_available_cameras`: the `try`
body constructs the capture, and if it opened, reads one frame, appending
the index on `ret = True`, then releases; `except: pass` swallows a raise
from the constructor or the read. -/
def scanOne (env : ScanEnv) (acc : List Nat) (i : Nat) : List Nat :=
  if env.ctorRaises i then acc
  else if env.opens i then
    if env.readRaises i then acc
    else if env.readOk i then acc ++ [i]
    else acc
  else acc

/-- `get_available_cameras`: scan candidate indices 0..3, accumulating those
that open and read. -/
def get_available_cameras (env : ScanEnv) : List Nat :=
  (List.range 4).foldl (scanOne env) []

/-- A probe of `env` succeeds at `i` when the constructor does not raise, the
capture opens, and the single read neither raises nor reports failure. -/
def available (env : ScanEnv) (i : Nat) : Bool :=
  !env.ctorRaises i && env.opens i && !env.readRaises i && env.readOk i

/-- The parsed JSON body of a `/control` request, after Flask's
`request.get_json()` succeeded: the `action` value (`data.get('action', '')`,
absent reads as `""`) and the camera index (`data.get('camera_index', 0)`). -/
structure CtrlBody where
  action : String
  camera_index : Nat
deriving DecidableEq, Repr

/-- Python's `str.lower()` as applied to the request's action value,
modelled as character-wise lower-casing (the actions compared against are
ASCII). -/
def lower (s : String) : String := String.mk (s.data.map Char.toLower)

/-- The `/control` route handler.  `body = none` models a request whose body
is not valid JSON: `request.get_json()` raises there, and nothing in the
handler catches it, so the exception escapes to the framework
(`Except.error`).  Otherwise dispatch on the lower-cased action. -/
def control (openOk : Bool) (s : CamState) (body : Option CtrlBody) :
    Except String (CtrlResult × CamState) :=
  match body with
  | none => Except.error "request.get_json raised on a malformed body"
  | some d =>
    let action := lower d.action
    if action = "on" then Except.ok (start openOk d.camera_index s)
    else if action = "off" then Except.ok (stop s)
    else Except.ok ({ success := false, message := "잘못된 요청" }, s)

/-- Lock and device-handle actions, for stating which device accesses run
under `self.lock`. -/
inductive Action where
  | acqLock
  | relLock
  | openDev
  | readDev
  | closeDev
deriving DecidableEq, Repr

/-- The lock/device actions performed by one `start` call: the whole body is
a `with self.lock:` block (acquired on entry, released on every exit path);
when not already running it constructs a capture (the device-open attempt). -/
def startActions (running : Bool) : List Action :=
  if running then [Action.acqLock, Action.relLock]
  else [Action.acqLock, Action.openDev, Action.relLock]

/-- The lock/device actions performed by one `stop` call: a `with self.lock:`
block; from the running state (where the camera field is set) it releases the
device. -/
def stopActions (running : Bool) : List Action :=
  if running then [Action.acqLock, Action.closeDev, Action.relLock]
  else [Action.acqLock, Action.relLock]

/-- The lock/device actions performed by one `get_frame` call, with `active`
the value of `self.is_running and self.camera is not None`: the device read
is performed, but the method never touches `self.lock`. -/
def getFrameActions (active : Bool) : List Action :=
  if active then [Action.readDev] else []

/-- Scan an action list tracking whether the lock is held; `true` iff every
device action (`openDev`, `readDev`, `closeDev`) occurs while it is held. -/
def lockedDevOps : Bool → List Action → Bool
  | _, [] => true
  | _, Action.acqLock :: rest => lockedDevOps true rest
  | _, Action.relLock :: rest => lockedDevOps false rest
  | held, _ :: rest => held && lockedDevOps held rest

/-- One call on the shared `CameraManager` instance, with the environment
inputs it consumes.  `logDet` is a direct `log_detection` call (the unit the
log-cap and counter claims quantify over). -/
inductive Op where
  | start (openOk : Bool) (i : Nat)
  | stop
  | getFrame (t : Tick)
  | getStatus
  | logDet (ioOk : Bool) (now cn : String) (conf : Nat)

/-- The state after one operation (results discarded). -/
def applyOp (cfg : Config) (s : CamState) : Op → CamState
  | Op.start ok i => (start ok i s).2
  | Op.stop => (stop s).2
  | Op.getFrame t => (get_frame cfg t s).2
  | Op.getStatus => s
  | Op.logDet ok now cn conf => log_detection ok now cn conf s

/-- The state after a sequence of operations. -/
def applyOps (cfg : Config) (s : CamState) (ops : List Op) : CamState :=
  ops.foldl (applyOp cfg) s

/-- A successful `log_detection` call driven by an input triple
(timestamp, class name, confidence). -/
def logOp (e : String × String × Nat) : Op :=
  Op.logDet true e.1 e.2.1 e.2.2

/-- Follows the claim's words, for comparison with the code: the running
flag and current index evolve only as "a start that actually opens a device
from STOPPED records its index; stop clears the flag and keeps the index;
everything else leaves both alone". -/
def specStep : Bool × Nat → Op → Bool × Nat
  | (r, idx), Op.start ok i =>
    if r then (r, idx) else if ok then (true, i) else (false, idx)
  | (_, idx), Op.stop => (false, idx)
  | p, Op.getFrame _ => p
  | p, Op.getStatus => p
  | p, Op.logDet _ _ _ _ => p

/-- The claim-side automaton run over a sequence of operations. -/
def specRun (p : Bool × Nat) (ops : List Op) : Bool × Nat :=
  ops.foldl specStep p

/-- A sample configuration: the model loaded at startup. -/
def cfg0 : Config := { yolo_available := true, model_loaded := true }

/-- The session after one successful `start(0)` from the initial state. -/
def runState1 : CamState := (start true 0 initState).2

/-- A sample tick whose device read reports failure (`ret = False`). -/
def tickReadFail : Tick :=
  { readRaises := false, readRet := false, rawFrame := 7, modelRaises := false,
    dets := [], encRaises := false, encRet := true, encodeOf := fun _ => 0,
    logIoOk := fun _ => true, nowAt := fun _ => "t" }

/-- A sample tick whose device read raises. -/
def tickReadRaise : Tick :=
  { readRaises := true, readRet := false, rawFrame := 7, modelRaises := false,
    dets := [], encRaises := false, encRet := true, encodeOf := fun _ => 0,
    logIoOk := fun _ => true, nowAt := fun _ => "t" }

/-- A sample tick whose JPEG encoding raises. -/
def tickEncRaise : Tick :=
  { readRaises := false, readRet := true, rawFrame := 7, modelRaises := false,
    dets := [], encRaises := true, encRet := false, encodeOf := fun _ => 0,
    logIoOk := fun _ => true, nowAt := fun _ => "t" }

/-- A sample tick where the read succeeds but the model raises internally. -/
def tickModelRaise : Tick :=
  { readRaises := false, readRet := true, rawFrame := 7, modelRaises := true,
    dets := [{ className := "person", confidence := 9 }], encRaises := false,
    encRet := true, encodeOf := fun _ => 42, logIoOk := fun _ => true,
    nowAt := fun _ => "t" }

/-! Helper lemmas. -/

/-- Folding a step function that preserves a predicate preserves it. -/
theorem foldl_preserve {α β : Type} (f : β → α → β) (P : β → Prop)
    (h : ∀ b a, P b → P (f b a)) :
    ∀ (l : List α) (b : β), P b → P (l.foldl f b) := by
  intro l
  induction l with
  | nil => intro b hb; exact hb
  | cons a l ih => intro b hb; exact ih _ (h b a hb)

/-- `log_detection` never touches the running flag, the camera handle or the
current index, and never decreases the detection counter. -/
theorem log_detection_state (ok : Bool) (now cn : String) (conf : Nat) (s : CamState) :
    (log_detection ok now cn conf s).is_running = s.is_running
    ∧ (log_detection ok now cn conf s).camera = s.camera
    ∧ (log_detection ok now cn conf s).current_camera_index = s.current_camera_index
    ∧ s.detection_count ≤ (log_detection ok now cn conf s).detection_count := by
  cases ok <;> simp [log_detection]

/-- `detect_objects` never touches the running flag, the camera handle or the
current index, and never decreases the detection counter. -/
theorem detect_objects_state (t : Tick) (frame : Frame) (s : CamState) :
    (detect_objects t frame s).2.is_running = s.is_running
    ∧ (detect_objects t frame s).2.camera = s.camera
    ∧ (detect_objects t frame s).2.current_camera_index = s.current_camera_index
    ∧ s.detection_count ≤ (detect_objects t frame s).2.detection_count := by
  unfold detect_objects
  split
  · simp
  · exact foldl_preserve _
      (fun fs : Frame × CamState =>
        fs.2.is_running = s.is_running ∧ fs.2.camera = s.camera
        ∧ fs.2.current_camera_index = s.current_camera_index
        ∧ s.detection_count ≤ fs.2.detection_count)
      (by
        intro b a hb
        obtain ⟨h1, h2, h3, h4⟩ := hb
        obtain ⟨g1, g2, g3, g4⟩ :=
          log_detection_state (t.logIoOk a.1) (t.nowAt a.1) a.2.className a.2.confidence b.2
        exact ⟨g1.trans h1, g2.trans h2, g3.trans h3, h4.trans g4⟩)
      _ _ ⟨rfl, rfl, rfl, Nat.le_refl _⟩

/-- `get_frame` never touches the running flag, the camera handle or the
current index, and never decreases the detection counter. -/
theorem get_frame_state (cfg : Config) (t : Tick) (s : CamState) :
    (get_frame cfg t s).2.is_running = s.is_running
    ∧ (get_frame cfg t s).2.camera = s.camera
    ∧ (get_frame cfg t s).2.current_camera_index = s.current_camera_index
    ∧ s.detection_count ≤ (get_frame cfg t s).2.detection_count := by
  obtain ⟨h1, h2, h3, h4⟩ := detect_objects_state t (Frame.raw t.rawFrame) s
  unfold get_frame getFrameBody
  cases hg : (!s.is_running || s.camera.isNone) <;>
    cases hr : t.readRaises <;>
      cases hret : t.readRet <;>
        cases hy : (cfg.yolo_available && cfg.model_loaded) <;>
          cases he : t.encRaises <;>
            cases her : t.encRet <;>
              simp [hg, hr, hret, hy, he, her, h1, h2, h3, h4]

/-- `start` never touches the detection counter or the log. -/
theorem start_count (ok : Bool) (i : Nat) (s : CamState) :
    (start ok i s).2.detection_count = s.detection_count
    ∧ (start ok i s).2.logs = s.logs := by
  cases hr : s.is_running <;> cases ok <;> simp [start, hr]

/-- `stop` never touches the detection counter or the log. -/
theorem stop_count (s : CamState) :
    (stop s).2.detection_count = s.detection_count ∧ (stop s).2.logs = s.logs := by
  cases hr : s.is_running <;> cases hc : s.camera.isSome <;> simp [stop, hr, hc]

/-- No single operation decreases the detection counter. -/
theorem applyOp_count_mono (cfg : Config) (s : CamState) (op : Op) :
    s.detection_count ≤ (applyOp cfg s op).detection_count := by
  cases op with
  | start ok i => simp [applyOp, (start_count ok i s).1]
  | stop => simp [applyOp, (stop_count s).1]
  | getFrame t => exact (get_frame_state cfg t s).2.2.2
  | getStatus => simp [applyOp]
  | logDet ok now cn conf => exact (log_detection_state ok now cn conf s).2.2.2

/-- No sequence of operations decreases the detection counter. -/
theorem applyOps_count_mono (cfg : Config) (ops : List Op) :
    ∀ s : CamState, s.detection_count ≤ (applyOps cfg s ops).detection_count := by
  induction ops with
  | nil => intro s; simp [applyOps]
  | cons op rest ih =>
      intro s
      exact (applyOp_count_mono cfg s op).trans (ih (applyOp cfg s op))

/-- One operation preserves the invariant "running iff an OPEN capture is
held" (note: not "iff the field is non-null" — a failed `start` leaves a
non-opened capture in the field). -/
theorem applyOp_openInv (cfg : Config) (s : CamState) (op : Op)
    (h : s.is_running = true ↔ ∃ c, s.camera = some c ∧ c.opened = true) :
    (applyOp cfg s op).is_running = true
      ↔ ∃ c, (applyOp cfg s op).camera = some c ∧ c.opened = true := by
  cases op with
  | start ok i =>
      cases hr : s.is_running <;> cases ok <;>
        simp [applyOp, start, hr] <;> rw [hr] at h <;> simpa using h
  | stop =>
      cases hr : s.is_running with
      | false =>
          have hs : applyOp cfg s Op.stop = s := by simp [applyOp, stop, hr]
          rw [hs]
          exact h
      | true =>
          rw [hr] at h
          obtain ⟨c, hc1, hc2⟩ := h.mp rfl
          have hcs : s.camera.isSome = true := by rw [hc1]; rfl
          simp [applyOp, stop, hr, hcs]
  | getFrame t =>
      obtain ⟨h1, h2, _, _⟩ := get_frame_state cfg t s
      rw [applyOp, h1, h2]; exact h
  | getStatus => exact h
  | logDet ok now cn conf =>
      obtain ⟨h1, h2, _, _⟩ := log_detection_state ok now cn conf s
      rw [applyOp, h1, h2]; exact h

/-- The open-capture invariant holds after any operation sequence. -/
theorem applyOps_openInv (cfg : Config) (ops : List Op) :
    ∀ s : CamState,
      (s.is_running = true ↔ ∃ c, s.camera = some c ∧ c.opened = true) →
      ((applyOps cfg s ops).is_running = true
        ↔ ∃ c, (applyOps cfg s ops).camera = some c ∧ c.opened = true) := by
  induction ops with
  | nil => intro s h; exact h
  | cons op rest ih =>
      intro s h
      exact ih (applyOp cfg s op) (applyOp_openInv cfg s op h)

/-- One operation moves the pair (running flag, current index) of the code
exactly as the claim-side automaton `specStep` predicts. -/
theorem applyOp_specStep (cfg : Config) (s : CamState) (op : Op) :
    (applyOp cfg s op).is_running
        = (specStep (s.is_running, s.current_camera_index) op).1
    ∧ (applyOp cfg s op).current_camera_index
        = (specStep (s.is_running, s.current_camera_index) op).2 := by
  cases op with
  | start ok i =>
      cases hr : s.is_running <;> cases ok <;> simp [applyOp, start, specStep, hr]
  | stop =>
      cases hr : s.is_running <;> cases hc : s.camera.isSome <;>
        simp [applyOp, stop, specStep, hr, hc]
  | getFrame t =>
      obtain ⟨h1, _, h3, _⟩ := get_frame_state cfg t s
      rw [applyOp]; exact ⟨h1, h3⟩
  | getStatus => exact ⟨rfl, rfl⟩
  | logDet ok now cn conf =>
      obtain ⟨h1, _, h3, _⟩ := log_detection_state ok now cn conf s
      rw [applyOp]; exact ⟨h1, h3⟩

/-- The code's (running flag, current index) refine the claim-side automaton
over any operation sequence. -/
theorem applyOps_specRun (cfg : Config) (ops : List Op) :
    ∀ s : CamState,
      (applyOps cfg s ops).is_running
          = (specRun (s.is_running, s.current_camera_index) ops).1
      ∧ (applyOps cfg s ops).current_camera_index
          = (specRun (s.is_running, s.current_camera_index) ops).2 := by
  induction ops with
  | nil => intro s; exact ⟨rfl, rfl⟩
  | cons op rest ih =>
      intro s
      have hp : specStep (s.is_running, s.current_camera_index) op
          = ((applyOp cfg s op).is_running, (applyOp cfg s op).current_camera_index) := by
        obtain ⟨h1, h2⟩ := applyOp_specStep cfg s op
        rw [Prod.ext_iff]
        exact ⟨h1.symm, h2.symm⟩
      have h := ih (applyOp cfg s op)
      simp only [applyOps, specRun, List.foldl_cons] at h ⊢
      rw [hp]
      exact h

/-- A sequence of successful `log_detection` calls leaves the current index
alone. -/
theorem applyOps_logOps_idx (cfg : Config) (evs : List (String × String × Nat)) :
    ∀ s : CamState,
      (applyOps cfg s (evs.map logOp)).current_camera_index = s.current_camera_index := by
  induction evs with
  | nil => intro s; rfl
  | cons e rest ih =>
      intro s
      have h := (log_detection_state true e.1 e.2.1 e.2.2 s).2.2.1
      have h2 := ih (log_detection true e.1 e.2.1 e.2.2 s)
      simp only [List.map_cons, applyOps, List.foldl_cons] at h2 ⊢
      exact h2.trans h

/-- Each successful `log_detection` call adds exactly one to the counter. -/
theorem applyOps_logOps_count (cfg : Config) (evs : List (String × String × Nat)) :
    ∀ s : CamState,
      (applyOps cfg s (evs.map logOp)).detection_count
        = s.detection_count + evs.length := by
  induction evs with
  | nil => intro s; rfl
  | cons e rest ih =>
      intro s
      have h2 := ih (log_detection true e.1 e.2.1 e.2.2 s)
      simp only [List.map_cons, applyOps, List.foldl_cons, applyOp, logOp,
        List.length_cons] at h2 ⊢
      rw [h2]
      have hcount : (log_detection true e.1 e.2.1 e.2.2 s).detection_count
          = s.detection_count + 1 := by simp [log_detection]
      omega

/-- One scan-loop iteration appends the index exactly when the probe
succeeds. -/
theorem scanOne_eq (env : ScanEnv) (acc : List Nat) (i : Nat) :
    scanOne env acc i = if available env i then acc ++ [i] else acc := by
  cases h1 : env.ctorRaises i <;> cases h2 : env.opens i <;>
    cases h3 : env.readRaises i <;> cases h4 : env.readOk i <;>
      simp [scanOne, available, h1, h2, h3, h4]

/-- The scan loop filters its index list by probe success. -/
theorem foldl_scanOne_eq_filter (env : ScanEnv) :
    ∀ (l : List Nat) (acc : List Nat),
      l.foldl (scanOne env) acc = acc ++ l.filter (fun i => available env i) := by
  intro l
  induction l with
  | nil => intro acc; simp
  | cons a l ih =>
      intro acc
      rw [List.foldl_cons, ih, scanOne_eq]
      cases h : available env a <;> simp [List.filter_cons, h]

/-- `get_available_cameras` is the probe-success filter of `[0, 1, 2, 3]`. -/
theorem get_available_cameras_eq (env : ScanEnv) :
    get_available_cameras env = (List.range 4).filter (fun i => available env i) := by
  rw [get_available_cameras, foldl_scanOne_eq_filter]
  exact List.nil_append _

/-- The `logs` field of a successful `log_detection` call, unfolded. -/
theorem log_detection_true_logs (now cn : String) (conf : Nat) (s : CamState) :
    (log_detection true now cn conf s).logs
      = if (s.logs ++ [mkEntry now cn conf s.current_camera_index]).length > 1000
        then (s.logs ++ [mkEntry now cn conf s.current_camera_index]).drop
              ((s.logs ++ [mkEntry now cn conf s.current_camera_index]).length - 1000)
        else s.logs ++ [mkEntry now cn conf s.current_camera_index] := by
  simp [log_detection]

/-- After any number of successful `log_detection` calls from the initial
state, the log file holds exactly the most recent 1000 entries (all of them
while there are at most 1000), in insertion order. -/
theorem applyOps_logOps_logs (cfg : Config) (evs : List (String × String × Nat)) :
    (applyOps cfg initState (evs.map logOp)).logs
      = (evs.map (fun e => mkEntry e.1 e.2.1 e.2.2 0)).drop (evs.length - 1000) := by
  induction evs using List.reverseRecOn with
  | nil => rfl
  | append_singleton l e ih =>
      have hidx : (applyOps cfg initState (l.map logOp)).current_camera_index = 0 :=
        applyOps_logOps_idx cfg l initState
      have hsplit : applyOps cfg initState ((l ++ [e]).map logOp)
          = log_detection true e.1 e.2.1 e.2.2 (applyOps cfg initState (l.map logOp)) := by
        simp only [List.map_append, List.map_cons, List.map_nil, applyOps,
          List.foldl_append, List.foldl_cons, List.foldl_nil, applyOp, logOp]
      rw [hsplit, log_detection_true_logs, ih, hidx]
      simp only [List.map_append, List.map_cons, List.map_nil, List.length_append,
        List.length_cons, List.length_nil, List.length_map, List.length_drop]
      rcases Nat.lt_or_ge l.length 1000 with hn | hn
      · have hd0 : l.length - 1000 = 0 := by omega
        rw [hd0, List.drop_zero, if_neg (by simp; omega)]
        have hz : l.length + (0 + 1) - 1000 = 0 := by omega
        rw [hz, List.drop_zero]
      · have hc : l.length - (l.length - 1000) + (0 + 1) > 1000 := by omega
        rw [if_pos hc]
        rw [List.drop_append_eq_append_drop, List.drop_append_eq_append_drop,
          List.drop_drop, List.length_drop, List.length_map]
        have e1 : l.length - 1000 + (l.length - (l.length - 1000) + (0 + 1) - 1000)
            = l.length - 1000 + 1 := by omega
        have e2 : l.length + (0 + 1) - 1000 = l.length - 1000 + 1 := by omega
        have e3 : l.length - (l.length - 1000) + (0 + 1) - 1000
              - (l.length - (l.length - 1000)) = 0 := by omega
        have e4 : l.length - 1000 + 1 - l.length = 0 := by omega
        rw [e2, e3, e1, e4]

/-! Claim theorems. -/

/-- C1 is refuted at a concrete input: after the single operation
"start(0) fails because the device does not open", the session is STOPPED
yet the camera handle field is NOT null — it holds the failed (non-opened)
capture object, because `start` assigns `self.camera` before checking
`isOpened()`.  This contradicts "handle non-null iff RUNNING" and "after a
failed start ... null handle". -/
theorem c1_counterexample :
    (applyOps cfg0 initState [Op.start false 0]).is_running = false
    ∧ (applyOps cfg0 initState [Op.start false 0]).camera
        = some { idx := 0, opened := false } := by decide

/-- C1 (amended): over every operation sequence from the initial state, the
session is RUNNING iff it holds an OPEN capture; a `start(i)` that fails
because the device does not open returns failure and leaves the session
STOPPED with its index unchanged, but stores the failed non-opened capture
in the handle field (the field is non-null after a failed start). -/
theorem c1_theorem : ∀ (cfg : Config) (ops : List Op),
    ((applyOps cfg initState ops).is_running = true
      ↔ ∃ c, (applyOps cfg initState ops).camera = some c ∧ c.opened = true)
    ∧ (∀ (i : Nat) (s : CamState), s.is_running = false →
        (start false i s).1.success = false
        ∧ (start false i s).2.is_running = false
        ∧ (start false i s).2.camera = some { idx := i, opened := false }
        ∧ (start false i s).2.current_camera_index = s.current_camera_index) := by
  intro cfg ops
  constructor
  · exact applyOps_openInv cfg ops initState (by simp [initState])
  · intro i s hs
    simp [start, hs]

/-- Witness for C1's amended theorem at the empty sequence and a concrete
failed start. -/
theorem c1_witness :
    ((applyOps cfg0 initState []).is_running = true
      ↔ ∃ c, (applyOps cfg0 initState []).camera = some c ∧ c.opened = true)
    ∧ ((start false 3 initState).1.success = false
        ∧ (start false 3 initState).2.is_running = false
        ∧ (start false 3 initState).2.camera = some { idx := 3, opened := false }
        ∧ (start false 3 initState).2.current_camera_index = 0) :=
  ⟨(c1_theorem cfg0 []).1, (c1_theorem cfg0 []).2 3 initState rfl⟩

/-- C2 is refuted at a concrete input: on an active session, `get_frame`
performs its device read with the lock never held — the method body does not
touch `self.lock`, so the "device-touching portion of getFrame" does not
execute under the session's exclusive lock. -/
theorem c2_counterexample :
    lockedDevOps false (getFrameActions true) = false
    ∧ Action.readDev ∈ getFrameActions true := by decide

/-- C2 (amended): `start` and `stop` perform their device actions entirely
under the session lock (every branch), but `get_frame` performs its device
read without ever acquiring the lock; nothing in the code prevents a
concurrent `stop` from releasing the handle during a `get_frame` read (the
code instead relies on `get_frame`'s catch-all `except`). -/
theorem c2_theorem :
    (∀ r : Bool, lockedDevOps false (startActions r) = true)
    ∧ (∀ r : Bool, lockedDevOps false (stopActions r) = true)
    ∧ (∀ a : Bool, Action.acqLock ∉ getFrameActions a)
    ∧ Action.readDev ∈ getFrameActions true := by decide

/-- C3 (confirmed): `get_frame` on a stopped session returns "no frame" with
the state untouched; a failed read returns "no frame" with the state
untouched; a raise in the read or in encoding is caught and degrades to "no
frame" for that tick; no call ever changes the running flag, the camera
handle or the current index; and `get_frame`'s action trace never opens a
device and is empty on an inactive session.  (Failures strictly inside
detection or logging are swallowed one level further down, per the spec's
detector and logger clauses, so "no frame" is the worst case of any hot-path
failure.) -/
theorem c3_theorem : ∀ (cfg : Config) (t : Tick) (s : CamState),
    (s.is_running = false → get_frame cfg t s = (none, s))
    ∧ (t.readRet = false → t.readRaises = false → get_frame cfg t s = (none, s))
    ∧ (t.readRaises = true → (get_frame cfg t s).1 = none)
    ∧ (t.encRaises = true → (get_frame cfg t s).1 = none)
    ∧ (get_frame cfg t s).2.is_running = s.is_running
    ∧ (get_frame cfg t s).2.camera = s.camera
    ∧ (get_frame cfg t s).2.current_camera_index = s.current_camera_index
    ∧ (∀ a : Bool, Action.openDev ∉ getFrameActions a)
    ∧ getFrameActions false = [] := by
  intro cfg t s
  obtain ⟨h1, h2, h3, _⟩ := get_frame_state cfg t s
  refine ⟨?_, ?_, ?_, ?_, h1, h2, h3, by decide, by decide⟩
  · intro hs
    simp [get_frame, hs]
  · intro hret hr
    cases hg : (!s.is_running || s.camera.isNone) <;>
      simp [get_frame, getFrameBody, hg, hret, hr]
  · intro hr
    cases hg : (!s.is_running || s.camera.isNone) <;>
      simp [get_frame, getFrameBody, hg, hr]
  · intro he
    cases hg : (!s.is_running || s.camera.isNone) <;>
      cases hr : t.readRaises <;>
        cases hret : t.readRet <;>
          simp [get_frame, getFrameBody, hg, hr, hret, he]

/-- Witness for C3 at concrete states and ticks: stopped session, failed
read on a running session, raising read, raising encode. -/
theorem c3_witness :
    get_frame cfg0 tickReadFail initState = (none, initState)
    ∧ get_frame cfg0 tickReadFail runState1 = (none, runState1)
    ∧ (get_frame cfg0 tickReadRaise runState1).1 = none
    ∧ (get_frame cfg0 tickEncRaise runState1).1 = none :=
  ⟨(c3_theorem cfg0 tickReadFail initState).1 rfl,
   (c3_theorem cfg0 tickReadFail runState1).2.1 rfl rfl,
   (c3_theorem cfg0 tickReadRaise runState1).2.2.1 rfl,
   (c3_theorem cfg0 tickEncRaise runState1).2.2.2.1 rfl⟩

/-- C4 (confirmed): `start` called while RUNNING returns success with the
"already running" message and the state returned is exactly the input state
(handle and recorded index unchanged), whatever index is requested and
whether or not that index would open; its lock/device trace contains no
device open. -/
theorem c4_theorem : ∀ (ok : Bool) (i : Nat) (s : CamState), s.is_running = true →
    start ok i s = ({ success := true, message := "이미 실행 중입니다" }, s)
    ∧ Action.openDev ∉ startActions true := by
  intro ok i s hs
  refine ⟨?_, by decide⟩
  simp [start, hs]

/-- Witness for C4: a second start with a different index (5) on a session
running camera 0. -/
theorem c4_witness :
    start true 5 runState1 = ({ success := true, message := "이미 실행 중입니다" }, runState1)
    ∧ Action.openDev ∉ startActions true :=
  c4_theorem true 5 runState1 rfl

/-- C5 (confirmed): when the model raises while processing a frame,
`detect_objects` returns the original frame with the state untouched — no
annotation drawn, nothing logged, nothing counted (an empty detection list)
— and `get_frame` still returns the encoded unannotated frame to the
streaming caller: the failure is never propagated. -/
theorem c5_theorem : ∀ (cfg : Config) (t : Tick) (frame : Frame) (s : CamState),
    t.modelRaises = true →
    detect_objects t frame s = (frame, s)
    ∧ (s.is_running = true → s.camera.isNone = false → t.readRaises = false →
       t.readRet = true → t.encRaises = false → t.encRet = true →
       get_frame cfg t s = (some (t.encodeOf (Frame.raw t.rawFrame)), s)) := by
  intro cfg t frame s hm
  constructor
  · simp [detect_objects, hm]
  · intro h1 h2 h3 h4 h5 h6
    simp [get_frame, getFrameBody, detect_objects, h1, h2, h3, h4, h5, h6, hm]

/-- Witness for C5: a raising model on a running session's tick. -/
theorem c5_witness :
    detect_objects tickModelRaise (Frame.raw 7) runState1 = (Frame.raw 7, runState1)
    ∧ get_frame cfg0 tickModelRaise runState1
        = (some (tickModelRaise.encodeOf (Frame.raw tickModelRaise.rawFrame)), runState1) :=
  ⟨(c5_theorem cfg0 tickModelRaise (Frame.raw 7) runState1 rfl).1,
   (c5_theorem cfg0 tickModelRaise (Frame.raw 7) runState1 rfl).2 rfl rfl rfl rfl rfl rfl⟩

/-- C6 (confirmed): the registry scan returns, in ascending order, exactly
the indices in 0..3 whose probe succeeds (the capture constructor does not
raise, the capture opens, and the single read neither raises nor reports
failure); a failing candidate is skipped without throwing and without
aborting the scan of the rest, and the result is simply empty when no
candidate qualifies. -/
theorem c6_theorem : ∀ env : ScanEnv,
    (∀ i : Nat, i ∈ get_available_cameras env ↔ i < 4 ∧ available env i = true)
    ∧ List.Sorted (· < ·) (get_available_cameras env) := by
  intro env
  rw [get_available_cameras_eq]
  constructor
  · intro i
    simp [List.mem_filter, List.mem_range]
  · exact (List.sorted_lt_range 4).filter _

/-- C7 (confirmed): every successful `log_detection` leaves the persisted
log with at most 1000 entries (whatever the log held before), and after
1000+k successfully recorded events from the initial state the log holds
exactly the most recent 1000 of them in insertion order — the k oldest have
been evicted. -/
theorem c7_theorem :
    (∀ (now cn : String) (conf : Nat) (s : CamState),
      (log_detection true now cn conf s).logs.length ≤ 1000)
    ∧ (∀ (cfg : Config) (evs : List (String × String × Nat)) (k : Nat),
        1 ≤ k → evs.length = 1000 + k →
        (applyOps cfg initState (evs.map logOp)).logs
          = (evs.map (fun e => mkEntry e.1 e.2.1 e.2.2 0)).drop k) := by
  constructor
  · intro now cn conf s
    rw [log_detection_true_logs]
    split
    next h => rw [List.length_drop]; omega
    next h => omega
  · intro cfg evs k hk hlen
    have hx : 1000 + k - 1000 = k := by omega
    rw [applyOps_logOps_logs, hlen, hx]

/-- Witness for C7: one successful record, and a run of 1001 events whose
log afterwards is the last 1000 of them. -/
theorem c7_witness :
    (log_detection true "t" "person" 9 initState).logs.length ≤ 1000
    ∧ (applyOps cfg0 initState ((List.replicate 1001 ("t", "person", 9)).map logOp)).logs
        = ((List.replicate 1001 ("t", "person", 9)).map
            (fun e => mkEntry e.1 e.2.1 e.2.2 0)).drop 1 :=
  ⟨c7_theorem.1 "t" "person" 9 initState,
   c7_theorem.2 cfg0 (List.replicate 1001 ("t", "person", 9)) 1 (by omega)
     (by rw [List.length_replicate])⟩

/-- C8 (confirmed): the detection counter never decreases under any
operation sequence, and after N consecutive successfully logged detection
events from the initial state, `get_status` reports `detection_count = N`. -/
theorem c8_theorem :
    (∀ (cfg : Config) (s : CamState) (ops : List Op),
      s.detection_count ≤ (applyOps cfg s ops).detection_count)
    ∧ (∀ (cfg : Config) (evs : List (String × String × Nat)),
      (get_status cfg (applyOps cfg initState (evs.map logOp))).detection_count
        = evs.length) := by
  constructor
  · intro cfg s ops
    exact applyOps_count_mono cfg ops s
  · intro cfg evs
    show (applyOps cfg initState (evs.map logOp)).detection_count = evs.length
    rw [applyOps_logOps_count]
    simp [initState]

/-- C9 is refuted at a concrete input: a control request whose body is not
valid JSON makes `request.get_json()` raise inside the handler; nothing in
the handler catches it, so no structured `{success, message}` response is
produced — the exception escapes to the framework instead. -/
theorem c9_counterexample :
    control true initState none
      = Except.error "request.get_json raised on a malformed body" := rfl

/-- C9 (amended): a successfully parsed request whose lower-cased action is
neither "on" nor "off" — unknown or missing action — is answered with the
structured failure `{success: false, message: "잘못된 요청"}` (the code's
Korean rendering of "invalid request") and the state is untouched; but a
request whose body fails JSON parsing is not answered with a structured
failure: the handler lets the parse exception escape. -/
theorem c9_theorem : ∀ (ok : Bool) (s : CamState) (d : CtrlBody),
    lower d.action ≠ "on" → lower d.action ≠ "off" →
    control ok s (some d)
      = Except.ok ({ success := false, message := "잘못된 요청" }, s)
    ∧ control ok s none
      = Except.error "request.get_json raised on a malformed body" := by
  intro ok s d h1 h2
  exact ⟨by simp [control, h1, h2], rfl⟩

/-- Witness for C9 at the unknown action "restart". -/
theorem c9_witness :
    control true initState (some { action := "restart", camera_index := 0 })
      = Except.ok ({ success := false, message := "잘못된 요청" }, initState)
    ∧ control true initState none
      = Except.error "request.get_json raised on a malformed body" :=
  c9_theorem true initState { action := "restart", camera_index := 0 }
    (by decide) (by decide)

/-- C10 is refuted at a concrete input: after `start(0)` succeeds, a second
`start(5)` also reports success (the idempotent no-op), making the last
success-reporting start one with index 5; yet after a `stop()` the status
still reports `current_idx = 0`, not 5 — "current_idx equals the index of
the last successful start" fails once an idempotent start reports success
for a different index. -/
theorem c10_counterexample :
    (start true 5 (start true 0 initState).2).1.success = true
    ∧ (get_status cfg0 (stop (start true 5 (start true 0 initState).2).2).2).current_idx = 0
    ∧ (get_status cfg0 (stop (start true 5 (start true 0 initState).2).2).2).camera_on = false
    ∧ (0 : Nat) ≠ 5 := by decide

/-- C10 (amended): the recorded index starts at 0 and is changed only by a
start that actually opens a device from STOPPED (a success-reporting no-op
start does not record its requested index); stop, failed start, get_frame
and logging leave it alone.  Formally: over every operation sequence the
code's (running flag, current index) equal the claim-side automaton
`specRun`, `get_status` reports exactly those two fields, and `stop` and
failed `start` preserve the index on any state. -/
theorem c10_theorem : ∀ (cfg : Config) (ops : List Op),
    initState.current_camera_index = 0
    ∧ (get_status cfg (applyOps cfg initState ops)).camera_on
        = (specRun (false, 0) ops).1
    ∧ (get_status cfg (applyOps cfg initState ops)).current_idx
        = (specRun (false, 0) ops).2
    ∧ (∀ s : CamState, (stop s).2.current_camera_index = s.current_camera_index)
    ∧ (∀ (i : Nat) (s : CamState),
        (start false i s).2.current_camera_index = s.current_camera_index) := by
  intro cfg ops
  obtain ⟨h1, h2⟩ := applyOps_specRun cfg ops initState
  refine ⟨rfl, h1, h2, ?_, ?_⟩
  · intro s
    cases hr : s.is_running <;> cases hc : s.camera.isSome <;> simp [stop, hr, hc]
  · intro i s
    cases hr : s.is_running <;> simp [start, hr]

end CCTV
